import Mathlib

/-!
Shallow embedding of the getlantern/telemetry repository (Go), for checking
its natural-language specification.

Embedded source files:
* telemetry.go — the Override Sampler (`override`, `overrideSampler`), the
  force-sample context annotating function (`AlwaysSample`), the environment
  check `sampleRate`, and the decision structure of `EnableOTELTracing`.
* sampler_env.go — `samplerFromEnv` and `parseTraceIDRatio` with their error
  values.
* The OpenTelemetry SDK samplers the repository delegates to
  (go.opentelemetry.io/otel/sdk/trace: AlwaysSample, NeverSample,
  TraceIDRatioBased, ParentBased) are embedded under the `sdktrace` namespace,
  following the SDK's sampling.go.

Modelling conventions:
* A Go `context.Context` is an association list of typed keys and values;
  `Value` returns the most recently added binding, matching the chain walk of
  nested `context.WithValue` wrappers.
* Go context keys carry their dynamic type: keys of the package-private
  `overrideType` are one constructor, the otel SDK's internal span key is
  another, and every key constructible outside those packages is a third, so
  key equality in the model coincides with Go interface equality of keys.
* `float64` ratios are modelled as exact rationals (ℚ); `strconv.ParseFloat`
  is modelled on the plain decimal/exponent forms it accepts (hex floats,
  inf/NaN and digit-separating underscores are out of scope — no input in
  this development uses them).
* `os.LookupEnv` reads from an explicit environment, an association list of
  variable names and values.
-/

set_option autoImplicit false

/-- A W3C span context as the otel SDK sees it: validity of the trace and span
identifiers, the remote bit, the sampled trace flag, and the trace state. -/
structure SpanContext where
  traceIDValid : Bool
  spanIDValid : Bool
  remote : Bool
  sampled : Bool
  traceState : String
deriving DecidableEq, Repr

/-- Go: `SpanContext.IsValid`: both the trace ID and the span ID are valid. -/
def SpanContext.IsValid (sc : SpanContext) : Bool :=
  sc.traceIDValid && sc.spanIDValid

/-- The zero span context returned when a context carries no span. -/
def emptySpanContext : SpanContext :=
  { traceIDValid := false, spanIDValid := false, remote := false,
    sampled := false, traceState := "" }

/-- A value stored in a context, tagged with its Go dynamic type. -/
inductive CtxValue where
  | boolV : Bool → CtxValue
  | strV : String → CtxValue
  | intV : Int → CtxValue
  | spanCtxV : SpanContext → CtxValue
deriving DecidableEq, Repr

/-- A context key, tagged with the Go type of the key. `overrideKey` covers
keys of the telemetry package's unexported `overrideType`; `currentSpanKey` is
the otel trace package's internal key holding the current span; `externalKey`
covers every key a package other than these two can construct. -/
inductive CtxKey where
  | overrideKey : String → CtxKey
  | currentSpanKey : CtxKey
  | externalKey : String → CtxKey
deriving DecidableEq, Repr

/-- A Go `context.Context`: the chain of `WithValue` bindings, most recent
first. -/
abbrev Context := List (CtxKey × CtxValue)

/-- Go: `ctx.Value(key)`: walk the chain outward and return the first binding for
the key, or nil (`none`). -/
def Context.value : Context → CtxKey → Option CtxValue
  | [], _ => none
  | (k, v) :: rest, key => if k = key then some v else Context.value rest key

/-- Go: `context.WithValue(ctx, key, val)`: a derived context whose `Value`
answers `val` for `key` and defers to the parent otherwise. -/
def Context.withValue (ctx : Context) (key : CtxKey) (val : CtxValue) : Context :=
  (key, val) :: ctx

/-- Go: `trace.SpanContextFromContext(ctx)`: the span context of the span stored
in the context, or the empty span context when there is none. -/
def SpanContextFromContext (ctx : Context) : SpanContext :=
  match ctx.value CtxKey.currentSpanKey with
  | some (CtxValue.spanCtxV sc) => sc
  | _ => emptySpanContext

/-- Go: `sdktrace.SamplingDecision`. -/
inductive SamplingDecision where
  | drop
  | recordOnly
  | recordAndSample
deriving DecidableEq, Repr

/-- Go: `sdktrace.SamplingResult`: the decision together with the trace state the
chosen path produces. (The SDK's samplers in scope never attach attributes, so
that field is omitted.) -/
structure SamplingResult where
  decision : SamplingDecision
  tracestate : String
deriving DecidableEq, Repr

/-- Go: `sdktrace.SamplingParameters`: the parent context, the big-endian integer
value of the first eight bytes of the trace ID (the only part of the ID any
sampler in scope reads), and the span name. Kind, attributes and links are
omitted: no sampler in scope reads them. -/
structure SamplingParameters where
  parentContext : Context
  traceIDHigh : Nat
  name : String

/-- Go: `sdktrace.Sampler`, the decision operation of the interface. (The
`Description` operation is modelled separately where the repository defines
it.) -/
structure Sampler where
  shouldSample : SamplingParameters → SamplingResult

namespace sdktrace

/-- Go: `sdktrace.AlwaysSample()`: record and sample, passing through the parent
trace state. -/
def AlwaysSample : Sampler :=
  ⟨fun p =>
    { decision := SamplingDecision.recordAndSample,
      tracestate := (SpanContextFromContext p.parentContext).traceState }⟩

/-- Go: `sdktrace.NeverSample()`: drop, passing through the parent trace state. -/
def NeverSample : Sampler :=
  ⟨fun p =>
    { decision := SamplingDecision.drop,
      tracestate := (SpanContextFromContext p.parentContext).traceState }⟩

/-- Go: `sdktrace.TraceIDRatioBased(fraction)`: fractions at least 1 collapse to
the always-on sampler; otherwise sample when the trace ID's high 63 bits fall
below `fraction * 2^63` (the Go conversion `uint64(fraction * (1 << 63))`
truncates, hence the floor). -/
def TraceIDRatioBased (fraction : ℚ) : Sampler :=
  if 1 ≤ fraction then AlwaysSample
  else
    let clamped := if fraction ≤ 0 then 0 else fraction
    let traceIDUpperBound : Nat := (clamped * 2 ^ 63).floor.toNat
    ⟨fun p =>
      let psc := SpanContextFromContext p.parentContext
      let x := p.traceIDHigh % 2 ^ 64 / 2
      if x < traceIDUpperBound then
        { decision := SamplingDecision.recordAndSample, tracestate := psc.traceState }
      else
        { decision := SamplingDecision.drop, tracestate := psc.traceState }⟩

/-- Go: `sdktrace.ParentBased(root)` with the default options: with a valid parent
span context, follow the parent's sampled bit (always/never sample); with no
valid parent, defer to the root sampler. -/
def ParentBased (root : Sampler) : Sampler :=
  ⟨fun p =>
    let psc := SpanContextFromContext p.parentContext
    if psc.IsValid then
      if psc.remote then
        if psc.sampled then AlwaysSample.shouldSample p
        else NeverSample.shouldSample p
      else
        if psc.sampled then AlwaysSample.shouldSample p
        else NeverSample.shouldSample p
    else root.shouldSample p⟩

end sdktrace

/-- telemetry.go: `const alwaysSample = overrideType("always-sample")` — the
package-private force-sample key. -/
def alwaysSample : CtxKey := CtxKey.overrideKey "always-sample"

/-- telemetry.go: `AlwaysSample(ctx)` returns
`context.WithValue(ctx, alwaysSample, true)`. -/
def AlwaysSample (ctx : Context) : Context :=
  ctx.withValue alwaysSample (CtxValue.boolV true)

/-- telemetry.go: `type override struct { wrapped sdktrace.Sampler }`. -/
structure override where
  wrapped : Sampler

/-- telemetry.go: `override.ShouldSample` — when the parent context's value
for the force-sample key compares equal to `true` (a Go interface comparison:
the stored value must be a `bool` holding `true`), answer what
`sdktrace.AlwaysSample()` answers; otherwise delegate to the wrapped
sampler. -/
def override.ShouldSample (os : override) (p : SamplingParameters) : SamplingResult :=
  if p.parentContext.value alwaysSample = some (CtxValue.boolV true) then
    sdktrace.AlwaysSample.shouldSample p
  else
    os.wrapped.shouldSample p

/-- telemetry.go: `override.Description()`. -/
def override.Description (_os : override) : String :=
  "OverrideSampler"

/-- telemetry.go: `overrideSampler(wrapped)` wraps a sampler in the
override. -/
def overrideSampler (wrapped : Sampler) : Sampler :=
  ⟨(override.mk wrapped).ShouldSample⟩

/-- An environment: association list of variable names and values. -/
abbrev Env := List (String × String)

/-- Go: `os.LookupEnv(key)` against an explicit environment. -/
def LookupEnv : Env → String → Option String
  | [], _ => none
  | (k, v) :: rest, key => if k = key then some v else LookupEnv rest key

namespace strconv

/-- Value of a list of decimal digit characters. -/
def digitsVal (cs : List Char) : Nat :=
  cs.foldl (fun a c => a * 10 + (c.toNat - 48)) 0

/-- Go: `strconv.ParseFloat(s, 64)`, modelled with exact rational semantics on
the plain decimal forms: optional sign, digits with an optional dot (at least
one digit in the mantissa), optional exponent. Returns `none` exactly when Go
returns a syntax error. -/
def ParseFloat (s : String) : Option ℚ :=
  let cs := s.data
  let signSplit : Bool × List Char :=
    match cs with
    | '-' :: rest => (true, rest)
    | '+' :: rest => (false, rest)
    | _ => (false, cs)
  let neg := signSplit.1
  let cs1 := signSplit.2
  let intDigits := cs1.takeWhile Char.isDigit
  let cs2 := cs1.dropWhile Char.isDigit
  let fracSplit : List Char × List Char :=
    match cs2 with
    | '.' :: rest => (rest.takeWhile Char.isDigit, rest.dropWhile Char.isDigit)
    | _ => ([], cs2)
  let fracDigits := fracSplit.1
  let cs3 := fracSplit.2
  if intDigits.isEmpty && fracDigits.isEmpty then none
  else
    let expSplit : Option Int × List Char :=
      match cs3 with
      | [] => (some 0, [])
      | e :: rest =>
        if e = 'e' ∨ e = 'E' then
          let esignSplit : Bool × List Char :=
            match rest with
            | '-' :: r => (true, r)
            | '+' :: r => (false, r)
            | _ => (false, rest)
          let eDigits := esignSplit.2.takeWhile Char.isDigit
          let r2 := esignSplit.2.dropWhile Char.isDigit
          if eDigits.isEmpty then (none, r2)
          else
            (some (if esignSplit.1 then -(digitsVal eDigits : Int) else (digitsVal eDigits : Int)), r2)
        else (none, cs3)
    match expSplit with
    | (none, _) => none
    | (some ex, rest) =>
      if rest.isEmpty then
        let mantNum : Nat := digitsVal intDigits * 10 ^ fracDigits.length + digitsVal fracDigits
        let signedNum : Int := if neg then -(mantNum : Int) else (mantNum : Int)
        if 0 ≤ ex then
          some (mkRat (signedNum * 10 ^ ex.toNat) (10 ^ fracDigits.length))
        else
          some (mkRat signedNum (10 ^ (fracDigits.length + ex.natAbs)))
      else none

end strconv

/-- Go: `strings.ToLower`, mapping each character to lower case (the inputs in
scope are ASCII, where Lean's `Char.toLower` agrees with Go). -/
def ToLower (s : String) : String :=
  ⟨s.data.map Char.toLower⟩

/-- Go: `strings.TrimSpace`, dropping whitespace from both ends. -/
def TrimSpace (s : String) : String :=
  ⟨((s.data.dropWhile Char.isWhitespace).reverse.dropWhile Char.isWhitespace).reverse⟩

/-- sampler_env.go: the environment variable names. -/
def tracesSamplerKey : String := "OTEL_TRACES_SAMPLER"

/-- sampler_env.go: the sampler-argument environment variable name. -/
def tracesSamplerArgKey : String := "OTEL_TRACES_SAMPLER_ARG"

/-- sampler_env.go: recognized sampler token. -/
def samplerAlwaysOn : String := "always_on"

/-- sampler_env.go: recognized sampler token. -/
def samplerAlwaysOff : String := "always_off"

/-- sampler_env.go: recognized sampler token. -/
def samplerTraceIDRatio : String := "traceidratio"

/-- sampler_env.go: recognized sampler token. -/
def samplerParentBasedAlwaysOn : String := "parentbased_always_on"

/-- sampler_env.go: recognized sampler token (the Go constant is spelled
samplerParsedBasedAlwaysOff in the source). -/
def samplerParsedBasedAlwaysOff : String := "parentbased_always_off"

/-- sampler_env.go: recognized sampler token. -/
def samplerParentBasedTraceIDRatio : String := "parentbased_traceidratio"

/-- sampler_env.go: the error values. `errUnsupportedSampler` carries the
normalized token; `samplerArgParseError` wraps the strconv syntax error,
identified here by the offending input. -/
inductive SamplerError where
  | errUnsupportedSampler : String → SamplerError
  | errNegativeTraceIDRatio : SamplerError
  | errGreaterThanOneTraceIDRatio : SamplerError
  | samplerArgParseError : String → SamplerError
deriving DecidableEq, Repr

/-- sampler_env.go: the `Error()` message of each error value (for the parse
error, the wrapped strconv syntax error's message is inlined). -/
def SamplerError.message : SamplerError → String
  | SamplerError.errUnsupportedSampler s => "unsupported sampler: " ++ s
  | SamplerError.errNegativeTraceIDRatio => "invalid trace ID ratio: less than 0.0"
  | SamplerError.errGreaterThanOneTraceIDRatio => "invalid trace ID ratio: greater than 1.0"
  | SamplerError.samplerArgParseError arg =>
      "parsing sampler argument: strconv.ParseFloat: parsing " ++
        "\"" ++ arg ++ "\"" ++ ": invalid syntax"

/-- sampler_env.go: `parseTraceIDRatio(arg)` — parse failure and out-of-range
values fall back to a full-sampling ratio sampler alongside the error. -/
def parseTraceIDRatio (arg : String) : Sampler × Option SamplerError :=
  match strconv.ParseFloat arg with
  | none => (sdktrace.TraceIDRatioBased 1, some (SamplerError.samplerArgParseError arg))
  | some v =>
    if v < 0 then (sdktrace.TraceIDRatioBased 1, some SamplerError.errNegativeTraceIDRatio)
    else if v > 1 then
      (sdktrace.TraceIDRatioBased 1, some SamplerError.errGreaterThanOneTraceIDRatio)
    else (sdktrace.TraceIDRatioBased v, none)

/-- sampler_env.go: `samplerFromEnv()` — returns the Go pair (sampler, error),
with the sampler position `none` when Go returns a nil sampler. -/
def samplerFromEnv (env : Env) : Option Sampler × Option SamplerError :=
  match LookupEnv env tracesSamplerKey with
  | none => (none, none)
  | some rawSampler =>
    let sampler := ToLower (TrimSpace rawSampler)
    let samplerArgLookup := LookupEnv env tracesSamplerArgKey
    let hasSamplerArg := samplerArgLookup.isSome
    let samplerArg := TrimSpace (samplerArgLookup.getD "")
    if sampler = samplerAlwaysOn then (some sdktrace.AlwaysSample, none)
    else if sampler = samplerAlwaysOff then (some sdktrace.NeverSample, none)
    else if sampler = samplerTraceIDRatio then
      if hasSamplerArg = false then (some (sdktrace.TraceIDRatioBased 1), none)
      else
        let pr := parseTraceIDRatio samplerArg
        (some pr.1, pr.2)
    else if sampler = samplerParentBasedAlwaysOn then
      (some (sdktrace.ParentBased sdktrace.AlwaysSample), none)
    else if sampler = samplerParsedBasedAlwaysOff then
      (some (sdktrace.ParentBased sdktrace.NeverSample), none)
    else if sampler = samplerParentBasedTraceIDRatio then
      if hasSamplerArg = false then
        (some (sdktrace.ParentBased (sdktrace.TraceIDRatioBased 1)), none)
      else
        let pr := parseTraceIDRatio samplerArg
        (some (sdktrace.ParentBased pr.1), pr.2)
    else (none, some (SamplerError.errUnsupportedSampler sampler))

/-- telemetry.go: the error values `sampleRate` can produce (golog errors,
identified by their condition). -/
inductive TelemetryErr where
  | samplerNotFound : TelemetryErr
  | samplerArgNotFound : TelemetryErr
  | sampleRateParseFailure : String → TelemetryErr
deriving DecidableEq, Repr

/-- telemetry.go: `sampleRate()` — checks that both sampling environment
variables are set and that the argument parses as a float; `none` means the Go
function returned a nil error. -/
def sampleRate (env : Env) : Option TelemetryErr :=
  match LookupEnv env tracesSamplerKey with
  | none => some TelemetryErr.samplerNotFound
  | some _ =>
    match LookupEnv env tracesSamplerArgKey with
    | none => some TelemetryErr.samplerArgNotFound
    | some sr =>
      match strconv.ParseFloat sr with
      | none => some (TelemetryErr.sampleRateParseFailure sr)
      | some _ => none

/-- The shutdown function `EnableOTELTracing` returns on every early-exit
path: `func(ctx context.Context) error { return nil }`. -/
def noopShutdown : Context → Option TelemetryErr := fun _ => none

/-- Observable outcome of `EnableOTELTracing`: either tracing stays disabled
and the `noopShutdown` function is returned, or a tracer provider is installed
whose sampler is `overrideSampler` applied to the environment-derived sampler
carried by `enabled`. -/
inductive TracingOutcome where
  | disabledNoop : TracingOutcome
  | enabled : Option Sampler → TracingOutcome

/-- telemetry.go: the decision structure of `EnableOTELTracing` — a failing
`sampleRate` check, a failing exporter construction (an IO effect, abstracted
by the `exporterOk` flag), or a `samplerFromEnv` error each disable tracing
and return the no-op shutdown; otherwise the provider is installed with the
override-wrapped environment sampler. -/
def EnableOTELTracing (env : Env) (exporterOk : Bool) : TracingOutcome :=
  match sampleRate env with
  | some _ => TracingOutcome.disabledNoop
  | none =>
    if exporterOk = false then TracingOutcome.disabledNoop
    else
      let fe := samplerFromEnv env
      match fe.2 with
      | some _ => TracingOutcome.disabledNoop
      | none => TracingOutcome.enabled fe.1

/-- An HTTP request: method, body, headers, and the associated context. -/
structure Request where
  method : String
  body : String
  headers : List (String × String)
  ctx : Context

/-- A force-sample rule: a pure predicate over an inbound request. -/
abbrev RequestFilter := Request → Bool

/-- A request handler producing a response of type α. -/
abbrev Handler (α : Type) := Request → α

/-- Modelled from the spec: the handler decorator (called `NewHandler` by its
test, which is the only trace of it under src/) is missing from the sources;
per spec §4.3 it accepts a downstream request handler and zero or more rules,
evaluates all configured rules on each inbound request, and if any rule
matches rebinds the request to a force-annotated context (derived via
`AlwaysSample`, spec §4.2) before invoking the downstream handler; if no rule
matches the request is forwarded unchanged. -/
def NewHandler {α : Type} (base : Handler α) (filters : List RequestFilter) : Handler α :=
  fun r =>
    if filters.any (fun f => f r) then
      base { r with ctx := AlwaysSample r.ctx }
    else
      base r

/-- C1: for every sampling-parameters value whose parent context carries the
force-sample flag with value true, the Override Sampler's ShouldSample returns
exactly the result the always-sample policy returns for those parameters,
for every wrapped base sampler (which is ignored on that call). -/
theorem C1_forced_flag_yields_always_sample_result (os : override) (p : SamplingParameters)
    (h : p.parentContext.value alwaysSample = some (CtxValue.boolV true)) :
    os.ShouldSample p = sdktrace.AlwaysSample.shouldSample p := by
  simp [override.ShouldSample, h]

/-- Witness for C1: a never-sample base sampler wrapped in the override, on a
context annotated by AlwaysSample, answers what the always-on policy
answers. -/
theorem C1_forced_flag_yields_always_sample_result_witness :
    (override.mk sdktrace.NeverSample).ShouldSample
        { parentContext := AlwaysSample [], traceIDHigh := 0, name := "span name" }
      = sdktrace.AlwaysSample.shouldSample
        { parentContext := AlwaysSample [], traceIDHigh := 0, name := "span name" } :=
  C1_forced_flag_yields_always_sample_result (override.mk sdktrace.NeverSample)
    { parentContext := AlwaysSample [], traceIDHigh := 0, name := "span name" }
    (by decide)

/-- C2: for every wrapped base sampler and every sampling-parameters value
whose parent context does not carry the force-sample flag, or carries it with
value false, the override-wrapped sampler returns exactly the wrapped
sampler's result, so it is observationally equivalent to the unwrapped
sampler on such contexts. -/
theorem C2_unforced_flag_delegates_to_wrapped (wrapped : Sampler) (p : SamplingParameters)
    (h : p.parentContext.value alwaysSample = none ∨
         p.parentContext.value alwaysSample = some (CtxValue.boolV false)) :
    (overrideSampler wrapped).shouldSample p = wrapped.shouldSample p := by
  rcases h with h | h <;> simp [overrideSampler, override.ShouldSample, h]

/-- Witness for C2: on the empty context (no flag), the override wrapping the
never-sample policy answers what the never-sample policy answers. -/
theorem C2_unforced_flag_delegates_to_wrapped_witness :
    (overrideSampler sdktrace.NeverSample).shouldSample
        { parentContext := [], traceIDHigh := 5, name := "op" }
      = sdktrace.NeverSample.shouldSample
        { parentContext := [], traceIDHigh := 5, name := "op" } :=
  C2_unforced_flag_delegates_to_wrapped sdktrace.NeverSample
    { parentContext := [], traceIDHigh := 5, name := "op" }
    (Or.inl (by decide))

/-- C3: the Override Sampler's flag lookup is total: on every input it
returns either the always-sample result or the wrapped sampler's result
(never a panic), and any stored value other than boolean true — explicit
false, a string, an integer, a span context — classifies the call as not
forced, exactly as an absent flag does: ShouldSample delegates to the wrapped
sampler. -/
theorem C3_flag_lookup_total_nontrue_not_forced (wrapped : Sampler) (p : SamplingParameters) :
    ((override.mk wrapped).ShouldSample p = sdktrace.AlwaysSample.shouldSample p ∨
     (override.mk wrapped).ShouldSample p = wrapped.shouldSample p) ∧
    (∀ v : CtxValue, v ≠ CtxValue.boolV true →
      (override.mk wrapped).ShouldSample
          { p with parentContext := Context.withValue p.parentContext alwaysSample v }
        = wrapped.shouldSample
          { p with parentContext := Context.withValue p.parentContext alwaysSample v }) := by
  constructor
  · by_cases h : p.parentContext.value alwaysSample = some (CtxValue.boolV true)
    · exact Or.inl (by simp [override.ShouldSample, h])
    · exact Or.inr (by simp [override.ShouldSample, h])
  · intro v hv
    have hval : Context.value (Context.withValue p.parentContext alwaysSample v) alwaysSample
        = some v := by
      simp [Context.withValue, Context.value]
    simp [override.ShouldSample, hval, hv]

/-- Witness for C3: a present-but-wrong-typed flag value (the string "true")
leaves the never-sample base sampler's decision in force. -/
theorem C3_flag_lookup_total_nontrue_not_forced_witness :
    (override.mk sdktrace.NeverSample).ShouldSample
        { parentContext := Context.withValue [] alwaysSample (CtxValue.strV "true"),
          traceIDHigh := 0, name := "n" }
      = sdktrace.NeverSample.shouldSample
        { parentContext := Context.withValue [] alwaysSample (CtxValue.strV "true"),
          traceIDHigh := 0, name := "n" } :=
  (C3_flag_lookup_total_nontrue_not_forced sdktrace.NeverSample
      { parentContext := [], traceIDHigh := 0, name := "n" }).2
    (CtxValue.strV "true") (by decide)

/-- C4: the force-annotating function AlwaysSample returns a new derived
context (distinct from the original, which it does not mutate): a lookup for
the force-sample key on the derived context returns true, every other key
reads exactly as on the original, the force-sample key is of the unexported
key type so no externally-constructible key equals it, and a store under any
external key never changes what the force-sample lookup returns. -/
theorem C4_always_sample_annotates_new_context (ctx : Context) :
    (AlwaysSample ctx).value alwaysSample = some (CtxValue.boolV true) ∧
    (∀ k : CtxKey, k ≠ alwaysSample → (AlwaysSample ctx).value k = ctx.value k) ∧
    AlwaysSample ctx ≠ ctx ∧
    (∀ s : String, CtxKey.externalKey s ≠ alwaysSample) ∧
    (∀ (s : String) (v : CtxValue),
      (Context.withValue ctx (CtxKey.externalKey s) v).value alwaysSample
        = ctx.value alwaysSample) := by
  refine ⟨?_, ?_, ?_, ?_, ?_⟩
  · simp [AlwaysSample, Context.withValue, Context.value]
  · intro k hk
    simp [AlwaysSample, Context.withValue, Context.value, Ne.symm hk]
  · intro h
    simpa [AlwaysSample, Context.withValue] using congrArg List.length h
  · intro s
    simp [alwaysSample]
  · intro s v
    simp [Context.withValue, Context.value, alwaysSample]

/-- Witness for C4: on the empty context, the annotated context answers true
for the force-sample key, another key is unaffected, and a concrete external
key differs from the force-sample key. -/
theorem C4_always_sample_annotates_new_context_witness :
    (AlwaysSample []).value alwaysSample = some (CtxValue.boolV true) ∧
    (AlwaysSample []).value CtxKey.currentSpanKey = Context.value [] CtxKey.currentSpanKey ∧
    CtxKey.externalKey "always-sample" ≠ alwaysSample :=
  ⟨(C4_always_sample_annotates_new_context []).1,
   (C4_always_sample_annotates_new_context []).2.1 CtxKey.currentSpanKey (by decide),
   (C4_always_sample_annotates_new_context []).2.2.2.1 "always-sample"⟩

/-- C5: for every downstream handler, every finite list of rules, and every
inbound request, the decorator built by NewHandler invokes the downstream
handler on the request rebound to a force-annotated context when any rule
matches (OR semantics) — with method, body and headers unaltered and the new
context answering true for the force-sample key — and invokes it on the
request completely unchanged when no rule matches. -/
theorem C5_handler_decorator_rebinds_on_match {α : Type}
    (base : Handler α) (filters : List RequestFilter) (r : Request) :
    (filters.any (fun f => f r) = true →
      NewHandler base filters r
        = base { method := r.method, body := r.body, headers := r.headers,
                 ctx := AlwaysSample r.ctx } ∧
      (AlwaysSample r.ctx).value alwaysSample = some (CtxValue.boolV true)) ∧
    (filters.any (fun f => f r) = false →
      NewHandler base filters r = base r) := by
  constructor
  · intro h
    constructor
    · simp [NewHandler, h]
    · simp [AlwaysSample, Context.withValue, Context.value]
  · intro h
    simp [NewHandler, h]

/-- Witness for C5: the test scenario — one rule matching header
traceme: true, a request carrying that header, and a downstream handler that
reads the force-sample key from the request context. -/
theorem C5_handler_decorator_rebinds_on_match_witness :
    NewHandler (fun r : Request => r.ctx.value alwaysSample)
        [fun r : Request => decide (("traceme", "true") ∈ r.headers)]
        { method := "GET", body := "", headers := [("traceme", "true")], ctx := [] }
      = (fun r : Request => r.ctx.value alwaysSample)
        { method := "GET", body := "", headers := [("traceme", "true")],
          ctx := AlwaysSample ([] : Context) } :=
  ((C5_handler_decorator_rebinds_on_match (fun r : Request => r.ctx.value alwaysSample)
      [fun r : Request => decide (("traceme", "true") ∈ r.headers)]
      { method := "GET", body := "", headers := [("traceme", "true")], ctx := [] }).1
    (by decide)).1

/-- C6: the ratio parser accepts every input parsing to a rational in
[0, 1] and yields the ratio sampler at that value; a value below 0 is
rejected with the below-range error, a value above 1 with the above-range
error, and an unparseable input with the parse error; the three error kinds
are pairwise distinguishable; every rejection falls back to the full-sampling
ratio-1 sampler; and on the concrete inputs 0.001 is accepted at ratio
1/1000 while -0.1, 1.5 and abc are rejected with the three distinct
errors. -/
theorem C6_parse_trace_id_ratio_ranges_and_errors :
    (∀ (s : String) (v : ℚ), strconv.ParseFloat s = some v → 0 ≤ v → v ≤ 1 →
      parseTraceIDRatio s = (sdktrace.TraceIDRatioBased v, none)) ∧
    (∀ (s : String) (v : ℚ), strconv.ParseFloat s = some v → v < 0 →
      parseTraceIDRatio s
        = (sdktrace.TraceIDRatioBased 1, some SamplerError.errNegativeTraceIDRatio)) ∧
    (∀ (s : String) (v : ℚ), strconv.ParseFloat s = some v → 1 < v →
      parseTraceIDRatio s
        = (sdktrace.TraceIDRatioBased 1, some SamplerError.errGreaterThanOneTraceIDRatio)) ∧
    (∀ s : String, strconv.ParseFloat s = none →
      parseTraceIDRatio s
        = (sdktrace.TraceIDRatioBased 1, some (SamplerError.samplerArgParseError s))) ∧
    (SamplerError.errNegativeTraceIDRatio ≠ SamplerError.errGreaterThanOneTraceIDRatio ∧
     (∀ s : String, SamplerError.samplerArgParseError s ≠ SamplerError.errNegativeTraceIDRatio) ∧
     (∀ s : String,
       SamplerError.samplerArgParseError s ≠ SamplerError.errGreaterThanOneTraceIDRatio)) ∧
    parseTraceIDRatio "0.001" = (sdktrace.TraceIDRatioBased (1 / 1000), none) ∧
    parseTraceIDRatio "-0.1"
      = (sdktrace.TraceIDRatioBased 1, some SamplerError.errNegativeTraceIDRatio) ∧
    parseTraceIDRatio "1.5"
      = (sdktrace.TraceIDRatioBased 1, some SamplerError.errGreaterThanOneTraceIDRatio) ∧
    parseTraceIDRatio "abc"
      = (sdktrace.TraceIDRatioBased 1, some (SamplerError.samplerArgParseError "abc")) := by
  refine ⟨?_, ?_, ?_, ?_, ⟨by decide, ?_, ?_⟩, ?_, rfl, rfl, rfl⟩
  · intro s v hp h0 h1
    simp only [parseTraceIDRatio, hp]
    rw [if_neg (not_lt.mpr h0), if_neg (not_lt.mpr h1)]
  · intro s v hp hv
    simp only [parseTraceIDRatio, hp]
    rw [if_pos hv]
  · intro s v hp hv
    simp only [parseTraceIDRatio, hp]
    rw [if_neg (not_lt.mpr (le_of_lt (lt_trans zero_lt_one hv))), if_pos hv]
  · intro s hp
    simp [parseTraceIDRatio, hp]
  · intro s
    simp
  · intro s
    simp
  · rw [show ((1 : ℚ) / 1000) = mkRat 1 1000 by norm_num [Rat.mkRat_eq_div]]
    rfl

/-- Witness for C6: the in-range input 0.5 is accepted at ratio one half. -/
theorem C6_parse_trace_id_ratio_ranges_and_errors_witness :
    parseTraceIDRatio "0.5" = (sdktrace.TraceIDRatioBased (mkRat 1 2), none) :=
  C6_parse_trace_id_ratio_ranges_and_errors.1 "0.5" (mkRat 1 2)
    (by decide) (by decide) (by decide)

/-- C7: with the OTEL_TRACES_SAMPLER variable unset, samplerFromEnv returns
no sampler and no error; with the variable set to a token outside the six
recognized kinds, it returns no sampler and the unsupported-sampler error,
whose message names the offending (normalized) token. -/
theorem C7_unset_and_unrecognized_selector (env : Env) :
    (LookupEnv env tracesSamplerKey = none → samplerFromEnv env = (none, none)) ∧
    (∀ raw : String, LookupEnv env tracesSamplerKey = some raw →
      ToLower (TrimSpace raw) ∉
        ([samplerAlwaysOn, samplerAlwaysOff, samplerTraceIDRatio, samplerParentBasedAlwaysOn,
          samplerParsedBasedAlwaysOff, samplerParentBasedTraceIDRatio] : List String) →
      samplerFromEnv env
        = (none, some (SamplerError.errUnsupportedSampler (ToLower (TrimSpace raw)))) ∧
      (SamplerError.errUnsupportedSampler (ToLower (TrimSpace raw))).message
        = "unsupported sampler: " ++ ToLower (TrimSpace raw)) := by
  constructor
  · intro h
    simp [samplerFromEnv, h]
  · intro raw hr hmem
    simp only [List.mem_cons, List.not_mem_nil, or_false, not_or] at hmem
    obtain ⟨h1, h2, h3, h4, h5, h6⟩ := hmem
    refine ⟨?_, rfl⟩
    simp [samplerFromEnv, hr, h1, h2, h3, h4, h5, h6]

/-- Witness for C7: the unrecognized token bogus produces a nil sampler and
the unsupported-sampler error naming bogus. -/
theorem C7_unset_and_unrecognized_selector_witness :
    samplerFromEnv [(tracesSamplerKey, "bogus")]
      = (none, some (SamplerError.errUnsupportedSampler (ToLower (TrimSpace "bogus")))) ∧
    (SamplerError.errUnsupportedSampler (ToLower (TrimSpace "bogus"))).message
      = "unsupported sampler: " ++ ToLower (TrimSpace "bogus") :=
  (C7_unset_and_unrecognized_selector [(tracesSamplerKey, "bogus")]).2 "bogus"
    (by decide) (by decide)

/-- C8: the selector is matched case-insensitively after trimming surrounding
whitespace — two environments whose selectors normalize identically and whose
argument variables agree produce identical samplers — and concretely
always_on (also spelled with spaces and capitals) yields the always-sample
policy while parentbased_traceidratio with argument 0.5 yields the
parent-aware ratio sampler at one half. -/
theorem C8_case_insensitive_trimmed_selection :
    (∀ (e1 e2 : Env) (r1 r2 : String),
      LookupEnv e1 tracesSamplerKey = some r1 →
      LookupEnv e2 tracesSamplerKey = some r2 →
      ToLower (TrimSpace r1) = ToLower (TrimSpace r2) →
      LookupEnv e1 tracesSamplerArgKey = LookupEnv e2 tracesSamplerArgKey →
      samplerFromEnv e1 = samplerFromEnv e2) ∧
    samplerFromEnv [(tracesSamplerKey, "always_on")] = (some sdktrace.AlwaysSample, none) ∧
    samplerFromEnv [(tracesSamplerKey, "  ALWAYS_ON  ")] = (some sdktrace.AlwaysSample, none) ∧
    samplerFromEnv [(tracesSamplerKey, "parentbased_traceidratio"), (tracesSamplerArgKey, "0.5")]
      = (some (sdktrace.ParentBased (sdktrace.TraceIDRatioBased (1 / 2))), none) := by
  refine ⟨?_, rfl, rfl, ?_⟩
  · intro e1 e2 r1 r2 h1 h2 hlow harg
    simp only [samplerFromEnv, h1, h2, hlow, harg]
  · rw [show ((1 : ℚ) / 2) = mkRat 1 2 by norm_num [Rat.mkRat_eq_div]]
    rfl

/-- Witness for C8: two spellings of the same selector, one lower-case and
one padded upper-case, produce the same sampler. -/
theorem C8_case_insensitive_trimmed_selection_witness :
    samplerFromEnv [(tracesSamplerKey, "always_on")]
      = samplerFromEnv [(tracesSamplerKey, " ALWAYS_on ")] :=
  C8_case_insensitive_trimmed_selection.1
    [(tracesSamplerKey, "always_on")] [(tracesSamplerKey, " ALWAYS_on ")]
    "always_on" " ALWAYS_on " (by decide) (by decide) (by decide) (by decide)

/-- C9: whenever the sample-rate environment check fails — OTEL_TRACES_SAMPLER
unset, OTEL_TRACES_SAMPLER_ARG unset, or an unparseable sample-rate value —
EnableOTELTracing disables tracing and returns the no-op shutdown function
(which returns nil on every context) instead of terminating or propagating an
error. -/
theorem C9_env_failure_noop_shutdown (env : Env) (exporterOk : Bool)
    (h : LookupEnv env tracesSamplerKey = none ∨
         LookupEnv env tracesSamplerArgKey = none ∨
         ∃ s, LookupEnv env tracesSamplerArgKey = some s ∧ strconv.ParseFloat s = none) :
    EnableOTELTracing env exporterOk = TracingOutcome.disabledNoop ∧
    (∀ ctx : Context, noopShutdown ctx = none) := by
  have hs : sampleRate env ≠ none := by
    rcases h with h | h | ⟨s, hs1, hs2⟩
    · simp [sampleRate, h]
    · cases hk : LookupEnv env tracesSamplerKey with
      | none => simp [sampleRate, hk]
      | some r => simp [sampleRate, hk, h]
    · cases hk : LookupEnv env tracesSamplerKey with
      | none => simp [sampleRate, hk]
      | some r => simp [sampleRate, hk, hs1, hs2]
  refine ⟨?_, fun ctx => rfl⟩
  cases hsr : sampleRate env with
  | none => exact absurd hsr hs
  | some e => simp [EnableOTELTracing, hsr]

/-- Witness for C9: with an empty environment, tracing is disabled and the
no-op shutdown returns nil on the empty context. -/
theorem C9_env_failure_noop_shutdown_witness :
    EnableOTELTracing [] true = TracingOutcome.disabledNoop ∧ noopShutdown [] = none :=
  ⟨(C9_env_failure_noop_shutdown [] true (Or.inl rfl)).1,
   (C9_env_failure_noop_shutdown [] true (Or.inl rfl)).2 []⟩

/-- C10: with the selector normalizing to traceidratio or
parentbased_traceidratio and OTEL_TRACES_SAMPLER_ARG unset, samplerFromEnv
returns the full-sampling ratio-1 sampler (parent-based in the latter case)
with no error. -/
theorem C10_missing_arg_defaults_to_ratio_one (env : Env) (raw : String)
    (hs : LookupEnv env tracesSamplerKey = some raw)
    (ha : LookupEnv env tracesSamplerArgKey = none) :
    (ToLower (TrimSpace raw) = samplerTraceIDRatio →
      samplerFromEnv env = (some (sdktrace.TraceIDRatioBased 1), none)) ∧
    (ToLower (TrimSpace raw) = samplerParentBasedTraceIDRatio →
      samplerFromEnv env
        = (some (sdktrace.ParentBased (sdktrace.TraceIDRatioBased 1)), none)) := by
  constructor
  · intro ht
    simp [samplerFromEnv, hs, ha, ht, samplerAlwaysOn, samplerAlwaysOff, samplerTraceIDRatio,
      samplerParentBasedAlwaysOn, samplerParsedBasedAlwaysOff, samplerParentBasedTraceIDRatio]
  · intro ht
    simp [samplerFromEnv, hs, ha, ht, samplerAlwaysOn, samplerAlwaysOff, samplerTraceIDRatio,
      samplerParentBasedAlwaysOn, samplerParsedBasedAlwaysOff, samplerParentBasedTraceIDRatio]

/-- Witness for C10: selector traceidratio with no argument variable yields
the ratio-1 sampler without error. -/
theorem C10_missing_arg_defaults_to_ratio_one_witness :
    samplerFromEnv [(tracesSamplerKey, "traceidratio")]
      = (some (sdktrace.TraceIDRatioBased 1), none) :=
  (C10_missing_arg_defaults_to_ratio_one [(tracesSamplerKey, "traceidratio")] "traceidratio"
    rfl rfl).1 rfl
